import Mathlib

/-!
HomeKit WS2812 accessory: characteristic registry and target-state bridge.

A shallow embedding of `my_accessory.c` / `my_accessory.h`:

* the four `volatile` bridge globals `hk_targetOn`, `hk_targetBrightness`,
  `hk_targetHue`, `hk_targetSat`;
* the eleven `homekit_characteristic_t` objects and the static service /
  accessory / server-config tables;
* the write handlers `set_on`, `set_brightness`, `set_hue`, `set_saturation`
  and the callback `on_identify`.

All C globals are gathered in one record `State`; a C function that touches
globals is a function `State → args → State`.
-/

namespace HomekitWs2812

/-! ## C `float` -/

/-- Values of a C `float` (IEEE-754 binary32), by class: not-a-number, the two
infinities, negative zero, and the remaining finite values by their exact
rational value (`fin 0` is `+0.0f`).  Every binary32 datum is one of these;
the carrier is larger than binary32 on the finite side, which only makes the
universally quantified statements below stronger. -/
inductive CFloat where
  | nan
  | ninf
  | pinf
  | negZero
  | fin (q : ℚ)
  deriving DecidableEq

namespace CFloat

/-- Rational value of a finite float (`-0.0f` has value `0`); `0` on the
non-finite classes, where it is never consulted. -/
def num : CFloat → ℚ
  | fin q => q
  | _ => 0

/-- True exactly on the not-a-number class (`isnan`). -/
def isNaN : CFloat → Bool
  | nan => true
  | _ => false

/-- The C comparison `a < b` on floats: false as soon as one side is NaN,
`-inf` below everything else, `+inf` above, finite values by value. -/
def lt : CFloat → CFloat → Bool
  | nan, _ => false
  | _, nan => false
  | ninf, ninf => false
  | ninf, _ => true
  | _, ninf => false
  | pinf, _ => false
  | _, pinf => true
  | a, b => decide (a.num < b.num)

/-- The C comparison `a <= b` on floats (false when a side is NaN). -/
def le : CFloat → CFloat → Bool
  | nan, _ => false
  | _, nan => false
  | ninf, _ => true
  | _, ninf => false
  | _, pinf => true
  | pinf, _ => false
  | a, b => decide (a.num ≤ b.num)

/-- The C comparison `a == b` on floats: NaN equals nothing, `-0.0f == 0.0f`. -/
def feq : CFloat → CFloat → Bool
  | nan, _ => false
  | _, nan => false
  | ninf, ninf => true
  | ninf, _ => false
  | _, ninf => false
  | pinf, pinf => true
  | pinf, _ => false
  | _, pinf => false
  | a, b => decide (a.num = b.num)

/-- Membership of a float in the closed range `[lo, hi]`, with the C comparisons
(`lo <= x && x <= hi`), hence false for NaN. -/
def inRange (lo hi x : CFloat) : Bool :=
  le lo x && le x hi

end CFloat

/-- The conversion `(float)b` of a C `int`: exact up to 24 significant bits,
otherwise rounded to the nearest binary32 value, ties to even. -/
def int_to_float (b : Int) : CFloat :=
  let n := b.natAbs
  if n < 2 ^ 24 then CFloat.fin b
  else
    let e := Nat.log2 n - 23
    let q := n / 2 ^ e
    let r := n % 2 ^ e
    let half := 2 ^ (e - 1)
    let m := if half < r ∨ (r = half ∧ q % 2 = 1) then q + 1 else q
    CFloat.fin ((if b < 0 then -1 else 1) * ((m * 2 ^ e : Nat) : ℚ))

/-! ## Library types used by the accessory -/

/-- Modelled from the spec: the `homekit_format_*` enumerators of the HomeKit
library header, which is not among the sources; the value formats are
boolean, integer, float and string. -/
inductive homekit_format where
  | homekit_format_bool
  | homekit_format_int
  | homekit_format_float
  | homekit_format_string
  deriving DecidableEq, Repr

/-- Modelled from the spec: the permission set (read / write / notify) of a
characteristic.  In the library header it is a bit mask; each bit is a flag
here and `|` is `homekit_permissions.or`. -/
structure homekit_permissions where
  paired_read : Bool
  paired_write : Bool
  notify : Bool
  deriving DecidableEq, Repr

/-- The mask `homekit_permissions_paired_read`. -/
def homekit_permissions_paired_read : homekit_permissions := ⟨true, false, false⟩

/-- The mask `homekit_permissions_paired_write`. -/
def homekit_permissions_paired_write : homekit_permissions := ⟨false, true, false⟩

/-- The mask `homekit_permissions_notify`. -/
def homekit_permissions_notify : homekit_permissions := ⟨false, false, true⟩

/-- Bitwise or of two permission masks (the C operator `|`). -/
def homekit_permissions.or (a b : homekit_permissions) : homekit_permissions :=
  ⟨a.paired_read || b.paired_read, a.paired_write || b.paired_write, a.notify || b.notify⟩

/-- Modelled from the spec: the library struct `homekit_value_t` (header not
among the sources): a format tag and the members `bool_value`, `int_value`,
`float_value`, `string_value`.  The C members share storage; every handler
reads and writes only the member of the characteristic's own format, so the
members are kept as separate fields.  `int_value` is a C `int`, taken as an
integer. -/
structure homekit_value_t where
  format : homekit_format
  bool_value : Bool
  int_value : Int
  float_value : CFloat
  string_value : String
  deriving DecidableEq

/-- Modelled from the spec: the library initialiser `HOMEKIT_BOOL(b)`. -/
def HOMEKIT_BOOL (b : Bool) : homekit_value_t :=
  ⟨.homekit_format_bool, b, 0, CFloat.fin 0, ""⟩

/-- Modelled from the spec: the library initialiser `HOMEKIT_INT(i)`. -/
def HOMEKIT_INT (i : Int) : homekit_value_t :=
  ⟨.homekit_format_int, false, i, CFloat.fin 0, ""⟩

/-- Modelled from the spec: the library initialiser `HOMEKIT_FLOAT(f)`. -/
def HOMEKIT_FLOAT (f : CFloat) : homekit_value_t :=
  ⟨.homekit_format_float, false, 0, f, ""⟩

/-- Modelled from the spec: the library initialiser `HOMEKIT_STRING(s)`. -/
def HOMEKIT_STRING (s : String) : homekit_value_t :=
  ⟨.homekit_format_string, false, 0, CFloat.fin 0, s⟩

/-- Modelled from the spec: the type-identifiers `HOMEKIT_CHARACTERISTIC_*` of
the library header (not among the sources); each name used by the accessory
is one identifier. -/
inductive CharacteristicType where
  | HOMEKIT_CHARACTERISTIC_ON
  | HOMEKIT_CHARACTERISTIC_BRIGHTNESS
  | HOMEKIT_CHARACTERISTIC_HUE
  | HOMEKIT_CHARACTERISTIC_SATURATION
  | HOMEKIT_CHARACTERISTIC_NAME
  | HOMEKIT_CHARACTERISTIC_MANUFACTURER
  | HOMEKIT_CHARACTERISTIC_SERIAL_NUMBER
  | HOMEKIT_CHARACTERISTIC_MODEL
  | HOMEKIT_CHARACTERISTIC_FIRMWARE_REVISION
  | HOMEKIT_CHARACTERISTIC_IDENTIFY
  deriving DecidableEq, Repr

/-- Modelled from the spec: the service type-identifiers `HOMEKIT_SERVICE_*`
of the library header. -/
inductive ServiceType where
  | HOMEKIT_SERVICE_ACCESSORY_INFORMATION
  | HOMEKIT_SERVICE_LIGHTBULB
  deriving DecidableEq, Repr

/-- Modelled from the spec: the accessory category tag of the library header. -/
inductive AccessoryCategory where
  | homekit_accessory_category_lightbulb
  deriving DecidableEq, Repr

/-- The functions of `my_accessory.c` that are stored in a `.setter` field; a
function pointer is the name of the function it points to. -/
inductive SetterFn where
  | set_on
  | set_brightness
  | set_hue
  | set_saturation
  deriving DecidableEq, Repr

/-- The functions of `my_accessory.c` that are stored in a `.callback` field. -/
inductive CallbackFn where
  | on_identify
  deriving DecidableEq, Repr

/-- Modelled from the spec: the library struct `homekit_characteristic_t` with
the fields the accessory initialises.  A pointer field left out of a C
initialiser is null: `none`. -/
structure homekit_characteristic_t where
  type : CharacteristicType
  description : String
  format : homekit_format
  permissions : homekit_permissions
  value : homekit_value_t
  min_value : Option CFloat
  max_value : Option CFloat
  min_step : Option CFloat
  setter : Option SetterFn
  callback : Option CallbackFn
  deriving DecidableEq

/-- The characteristic objects defined in `my_accessory.c`; `&cha_x` is the
name `cha_x`. -/
inductive CharRef where
  | cha_on
  | cha_brightness
  | cha_hue
  | cha_saturation
  | cha_name
  | cha_manu
  | cha_sn
  | cha_model
  | cha_fw
  | cha_acc_name
  | cha_ident
  deriving DecidableEq, Repr

/-- The service objects defined in `my_accessory.c`. -/
inductive ServiceRef where
  | service_info
  | service_light
  deriving DecidableEq, Repr

/-- The accessory objects defined in `my_accessory.c`. -/
inductive AccessoryRef where
  | accessory
  deriving DecidableEq, Repr

/-- Modelled from the spec: the library struct `homekit_service_t`; the
null-terminated pointer array is the list of its entries before `NULL`. -/
structure homekit_service_t where
  type : ServiceType
  primary : Bool
  characteristics : List CharRef
  deriving DecidableEq, Repr

/-- Modelled from the spec: the library struct `homekit_accessory_t`. -/
structure homekit_accessory_t where
  id : Nat
  category : AccessoryCategory
  services : List ServiceRef
  deriving DecidableEq, Repr

/-- Modelled from the spec: the library struct `homekit_server_config_t`. -/
structure homekit_server_config_t where
  accessories : List AccessoryRef
  password : String
  deriving DecidableEq, Repr

/-! ## Program state -/

/-- All objects with static storage in `my_accessory.c`: the four bridge
variables, the eleven characteristics, the two services, the accessory and
the server configuration. -/
structure State where
  hk_targetOn : Bool
  hk_targetBrightness : CFloat
  hk_targetHue : CFloat
  hk_targetSat : CFloat
  cha_on : homekit_characteristic_t
  cha_brightness : homekit_characteristic_t
  cha_hue : homekit_characteristic_t
  cha_saturation : homekit_characteristic_t
  cha_name : homekit_characteristic_t
  cha_manu : homekit_characteristic_t
  cha_sn : homekit_characteristic_t
  cha_model : homekit_characteristic_t
  cha_fw : homekit_characteristic_t
  cha_acc_name : homekit_characteristic_t
  cha_ident : homekit_characteristic_t
  service_info : homekit_service_t
  service_light : homekit_service_t
  accessory : homekit_accessory_t
  hk_config : homekit_server_config_t
  deriving DecidableEq

/-- The permission mask `paired_read | paired_write | notify` of the four
mutable characteristics. -/
def perm_read_write_notify : homekit_permissions :=
  (homekit_permissions_paired_read.or homekit_permissions_paired_write).or
    homekit_permissions_notify

/-- A string characteristic with read permission only, as `cha_name`,
`cha_manu`, `cha_sn`, `cha_model`, `cha_fw`, `cha_acc_name` are initialised. -/
def string_characteristic (t : CharacteristicType) (d v : String) :
    homekit_characteristic_t where
  type := t
  description := d
  format := .homekit_format_string
  permissions := homekit_permissions_paired_read
  value := HOMEKIT_STRING v
  min_value := none
  max_value := none
  min_step := none
  setter := none
  callback := none

/-- The state given by the static initialisers of `my_accessory.c`: what the
program holds at startup, before any handler has run. -/
def hk_init : State where
  hk_targetOn := false
  hk_targetBrightness := CFloat.fin 100
  hk_targetHue := CFloat.fin 0
  hk_targetSat := CFloat.fin 0
  cha_on :=
    { type := .HOMEKIT_CHARACTERISTIC_ON
      description := "On"
      format := .homekit_format_bool
      permissions := perm_read_write_notify
      value := HOMEKIT_BOOL false
      min_value := none
      max_value := none
      min_step := none
      setter := some .set_on
      callback := none }
  cha_brightness :=
    { type := .HOMEKIT_CHARACTERISTIC_BRIGHTNESS
      description := "Brightness"
      format := .homekit_format_int
      permissions := perm_read_write_notify
      value := HOMEKIT_INT 100
      min_value := some (CFloat.fin 0)
      max_value := some (CFloat.fin 100)
      min_step := some (CFloat.fin 1)
      setter := some .set_brightness
      callback := none }
  cha_hue :=
    { type := .HOMEKIT_CHARACTERISTIC_HUE
      description := "Hue"
      format := .homekit_format_float
      permissions := perm_read_write_notify
      value := HOMEKIT_FLOAT (CFloat.fin 0)
      min_value := some (CFloat.fin 0)
      max_value := some (CFloat.fin 360)
      min_step := some (CFloat.fin 1)
      setter := some .set_hue
      callback := none }
  cha_saturation :=
    { type := .HOMEKIT_CHARACTERISTIC_SATURATION
      description := "Saturation"
      format := .homekit_format_float
      permissions := perm_read_write_notify
      value := HOMEKIT_FLOAT (CFloat.fin 0)
      min_value := some (CFloat.fin 0)
      max_value := some (CFloat.fin 100)
      min_step := some (CFloat.fin 1)
      setter := some .set_saturation
      callback := none }
  cha_name := string_characteristic .HOMEKIT_CHARACTERISTIC_NAME "Name" "HomeKit 灯带"
  cha_manu := string_characteristic .HOMEKIT_CHARACTERISTIC_MANUFACTURER "Manufacturer" "RGB"
  cha_sn := string_characteristic .HOMEKIT_CHARACTERISTIC_SERIAL_NUMBER "Serial Number" "HKLED-001"
  cha_model := string_characteristic .HOMEKIT_CHARACTERISTIC_MODEL "Model" "WS2812"
  cha_fw := string_characteristic .HOMEKIT_CHARACTERISTIC_FIRMWARE_REVISION "Firmware Revision" "1.0.0"
  cha_acc_name := string_characteristic .HOMEKIT_CHARACTERISTIC_NAME "Name" "RGB"
  cha_ident :=
    { type := .HOMEKIT_CHARACTERISTIC_IDENTIFY
      description := "Identify"
      format := .homekit_format_bool
      permissions := homekit_permissions_paired_write
      value := HOMEKIT_BOOL false
      min_value := none
      max_value := none
      min_step := none
      setter := none
      callback := some .on_identify }
  service_info :=
    { type := .HOMEKIT_SERVICE_ACCESSORY_INFORMATION
      primary := false
      characteristics := [.cha_acc_name, .cha_manu, .cha_sn, .cha_model, .cha_fw, .cha_ident] }
  service_light :=
    { type := .HOMEKIT_SERVICE_LIGHTBULB
      primary := true
      characteristics := [.cha_on, .cha_brightness, .cha_hue, .cha_saturation, .cha_name] }
  accessory :=
    { id := 1
      category := .homekit_accessory_category_lightbulb
      services := [.service_info, .service_light] }
  hk_config :=
    { accessories := [.accessory]
      password := "111-22-333" }

/-! ## Handlers -/

/-- The callback `on_identify`: its body discards the argument and does
nothing else. -/
def on_identify (s : State) (_value : homekit_value_t) : State :=
  s

/-- The handler `set_on`: stores `v.bool_value` in `hk_targetOn` and in
`cha_on.value.bool_value`. -/
def set_on (s : State) (v : homekit_value_t) : State :=
  { s with
    hk_targetOn := v.bool_value
    cha_on := { s.cha_on with value := { s.cha_on.value with bool_value := v.bool_value } } }

/-- The handler `set_brightness`: `b = v.int_value`, lowered to `0` when
negative, then capped at `100`; stores `(float)b` in `hk_targetBrightness`
and `b` in `cha_brightness.value.int_value`. -/
def set_brightness (s : State) (v : homekit_value_t) : State :=
  let b := v.int_value
  let b := if b < 0 then 0 else b
  let b := if b > 100 then 100 else b
  { s with
    hk_targetBrightness := int_to_float b
    cha_brightness :=
      { s.cha_brightness with value := { s.cha_brightness.value with int_value := b } } }

/-- The handler `set_hue`: `h = v.float_value`, replaced by `0` when `h < 0`,
then by `360` when `h > 360` (C float comparisons); stores `h` in
`hk_targetHue` and in `cha_hue.value.float_value`. -/
def set_hue (s : State) (v : homekit_value_t) : State :=
  let h := v.float_value
  let h := if CFloat.lt h (CFloat.fin 0) then CFloat.fin 0 else h
  let h := if CFloat.lt (CFloat.fin 360) h then CFloat.fin 360 else h
  { s with
    hk_targetHue := h
    cha_hue := { s.cha_hue with value := { s.cha_hue.value with float_value := h } } }

/-- The handler `set_saturation`: `s = v.float_value`, replaced by `0` when
`s < 0`, then by `100` when `s > 100`; stores it in `hk_targetSat` and in
`cha_saturation.value.float_value`. -/
def set_saturation (st : State) (v : homekit_value_t) : State :=
  let s := v.float_value
  let s := if CFloat.lt s (CFloat.fin 0) then CFloat.fin 0 else s
  let s := if CFloat.lt (CFloat.fin 100) s then CFloat.fin 100 else s
  { st with
    hk_targetSat := s
    cha_saturation :=
      { st.cha_saturation with value := { st.cha_saturation.value with float_value := s } } }

/-- Call through a `.setter` function pointer. -/
def SetterFn.call : SetterFn → State → homekit_value_t → State
  | .set_on => HomekitWs2812.set_on
  | .set_brightness => HomekitWs2812.set_brightness
  | .set_hue => HomekitWs2812.set_hue
  | .set_saturation => HomekitWs2812.set_saturation

/-- Call through a `.callback` function pointer. -/
def CallbackFn.call : CallbackFn → State → homekit_value_t → State
  | .on_identify => HomekitWs2812.on_identify

/-! ## Runs of the accessory -/

/-- What the protocol layer can do to the accessory: invoke one of the four
write handlers with a value, or trigger Identify. -/
inductive Event where
  | write_on (v : homekit_value_t)
  | write_brightness (v : homekit_value_t)
  | write_hue (v : homekit_value_t)
  | write_saturation (v : homekit_value_t)
  | identify (v : homekit_value_t)

/-- Effect of one event on the state. -/
def step (s : State) : Event → State
  | .write_on v => set_on s v
  | .write_brightness v => set_brightness s v
  | .write_hue v => set_hue s v
  | .write_saturation v => set_saturation s v
  | .identify v => on_identify s v

/-- State after a finite sequence of events, oldest first. -/
def run (s : State) (es : List Event) : State :=
  es.foldl step s

/-! ## Registry access -/

/-- Modelled from the spec: `get(characteristic_id)` of the registry, which is
library code outside the sources: returns the live characteristic. -/
def get (s : State) : CharRef → homekit_characteristic_t
  | .cha_on => s.cha_on
  | .cha_brightness => s.cha_brightness
  | .cha_hue => s.cha_hue
  | .cha_saturation => s.cha_saturation
  | .cha_name => s.cha_name
  | .cha_manu => s.cha_manu
  | .cha_sn => s.cha_sn
  | .cha_model => s.cha_model
  | .cha_fw => s.cha_fw
  | .cha_acc_name => s.cha_acc_name
  | .cha_ident => s.cha_ident

/-- Outcome of a registry write, as reported to the protocol layer. -/
inductive WriteStatus where
  | success
  | permission_error
  deriving DecidableEq, Repr

/-- Modelled from the spec: `write(characteristic_id, raw_value)` of the
registry, which is library code outside the sources.  A write to a read-only
characteristic, or to one without a write handler, is rejected as a
permission error and changes nothing; otherwise the write is delegated to
the characteristic's write handler and succeeds. -/
def write (s : State) (c : CharRef) (v : homekit_value_t) : WriteStatus × State :=
  let ch := get s c
  if ch.permissions.paired_write then
    match ch.setter with
    | some f => (.success, f.call s v)
    | none => (.permission_error, s)
  else (.permission_error, s)

/-- The read-only identity characteristics: the two Name objects,
Manufacturer, Serial Number, Model and Firmware Revision. -/
def identity_chars : List CharRef :=
  [.cha_name, .cha_acc_name, .cha_manu, .cha_sn, .cha_model, .cha_fw]

/-- The clamp of the spec on integers, in the spec's words:
`max(lo, min(hi, b))`. -/
def clamp_int_spec (lo hi b : Int) : Int :=
  max lo (min hi b)

/-- The smaller of two floats under the C comparison, `b` when `b < a`. -/
def fmin_spec (a b : CFloat) : CFloat :=
  if CFloat.lt b a then b else a

/-- The larger of two floats under the C comparison, `b` when `a < b`. -/
def fmax_spec (a b : CFloat) : CFloat :=
  if CFloat.lt a b then b else a

/-- The clamp of the spec on floats, in the spec's words:
`max(lo, min(hi, x))`. -/
def clamp_float_spec (lo hi x : CFloat) : CFloat :=
  fmax_spec lo (fmin_spec hi x)

/-- The two-step float clamp as `set_hue` and `set_saturation` write it out,
for the upper bound `hi`: first `if (h < 0) h = 0;`, then
`if (h > hi) h = hi;`. -/
def code_clamp (hi : ℚ) (h : CFloat) : CFloat :=
  let h := if CFloat.lt h (CFloat.fin 0) then CFloat.fin 0 else h
  if CFloat.lt (CFloat.fin hi) h then CFloat.fin hi else h

/-- The three range conditions on the bridge: brightness in `[0,100]`, hue in
`[0,360]`, saturation in `[0,100]`. -/
def bridge_in_range (s : State) : Bool :=
  CFloat.inRange (CFloat.fin 0) (CFloat.fin 100) s.hk_targetBrightness &&
  CFloat.inRange (CFloat.fin 0) (CFloat.fin 360) s.hk_targetHue &&
  CFloat.inRange (CFloat.fin 0) (CFloat.fin 100) s.hk_targetSat

/-- The value carried by an event. -/
def Event.value : Event → homekit_value_t
  | .write_on v => v
  | .write_brightness v => v
  | .write_hue v => v
  | .write_saturation v => v
  | .identify v => v

/-! ## Tables, selectors and predicates for the registry claims -/

/-- The service object a `&service_x` pointer refers to. -/
def get_service (s : State) : ServiceRef → homekit_service_t
  | .service_info => s.service_info
  | .service_light => s.service_light

/-- The accessory object an `&accessory` pointer refers to. -/
def get_accessory (s : State) : AccessoryRef → homekit_accessory_t
  | .accessory => s.accessory

/-- The four mutable characteristics, in the order of `light_chars`. -/
def mutable_chars : List CharRef :=
  [.cha_on, .cha_brightness, .cha_hue, .cha_saturation]

/-- The type-identifiers of the characteristics a service groups, in table
order. -/
def service_types (s : State) (sv : ServiceRef) : List CharacteristicType :=
  (get_service s sv).characteristics.map (fun c => (get s c).type)

/-- Two characteristic objects agree on every field other than `.value`:
type, description, format, permissions, the min/max/step range, setter and
callback. -/
def same_except_value (a b : homekit_characteristic_t) : Prop :=
  a.type = b.type ∧ a.description = b.description ∧ a.format = b.format ∧
  a.permissions = b.permissions ∧ a.min_value = b.min_value ∧
  a.max_value = b.max_value ∧ a.min_step = b.min_step ∧ a.setter = b.setter ∧
  a.callback = b.callback

/-- Agreement outside `.value` can be checked field by field. -/
instance same_except_value_decidable (a b : homekit_characteristic_t) :
    Decidable (same_except_value a b) := by
  unfold same_except_value
  infer_instance

/-- The value of an On write, `none` for every other event. -/
def Event.on_write : Event → Option homekit_value_t
  | .write_on v => some v
  | _ => none

/-- The value of a Brightness write, `none` for every other event. -/
def Event.brightness_write : Event → Option homekit_value_t
  | .write_brightness v => some v
  | _ => none

/-- The value of a Hue write, `none` for every other event. -/
def Event.hue_write : Event → Option homekit_value_t
  | .write_hue v => some v
  | _ => none

/-- The value of a Saturation write, `none` for every other event. -/
def Event.saturation_write : Event → Option homekit_value_t
  | .write_saturation v => some v
  | _ => none

/-- The value of the last event of a sequence (oldest first) that `sel`
selects, `none` when it selects none of them. -/
def last_write (sel : Event → Option homekit_value_t) : List Event → Option homekit_value_t
  | [] => none
  | e :: es =>
    match last_write sel es with
    | some v => some v
    | none => sel e

/-- What a bridge field holds after a sequence of events according to
latest-value-wins: `f` of the last selected write, or the starting value `d`
when the field was never written. -/
def latest {α : Type} (d : α) (f : homekit_value_t → α) (o : Option homekit_value_t) : α :=
  match o with
  | some v => f v
  | none => d

/-- The setup-code format of the spec, `NNN-NN-NNN` with every `N` a decimal
digit. -/
def is_setup_code_format (p : String) : Bool :=
  match p.toList with
  | [a, b, c, d1, d, e, d2, f, g, h] =>
    a.isDigit && b.isDigit && c.isDigit && d1 == '-' && d.isDigit && e.isDigit &&
      d2 == '-' && f.isDigit && g.isDigit && h.isDigit
  | _ => false

/-- Number of decimal digits in a string. -/
def digit_count (p : String) : Nat :=
  (p.toList.filter Char.isDigit).length

/-- A float lies between the `min_value` and `max_value` a characteristic
declares (`*min_value <= v && v <= *max_value`); false when a bound is not
declared. -/
def in_declared_range (ch : homekit_characteristic_t) (v : CFloat) : Bool :=
  match ch.min_value, ch.max_value with
  | some lo, some hi => CFloat.inRange lo hi v
  | _, _ => false

/-- The cached value of each mutable characteristic and its bridge variable
hold the same datum: the same boolean for On, the same float for Hue and
Saturation, and for Brightness the bridge float is the cached integer, both
as a number and as its cast. -/
def cache_synced (s : State) : Prop :=
  s.cha_on.value.bool_value = s.hk_targetOn ∧
  s.hk_targetBrightness = CFloat.fin ((s.cha_brightness.value.int_value : Int) : ℚ) ∧
  s.hk_targetBrightness = int_to_float s.cha_brightness.value.int_value ∧
  s.cha_hue.value.float_value = s.hk_targetHue ∧
  s.cha_saturation.value.float_value = s.hk_targetSat

/-- Whether the cached values and the bridge are in step can be checked field
by field. -/
instance cache_synced_decidable (s : State) : Decidable (cache_synced s) := by
  unfold cache_synced
  infer_instance

/-- The cached value of each mutable characteristic and its bridge variable
are numerically equal, with the C comparison `==`: booleans for On, the cached
`int` converted to `float` against the bridge float for Brightness, floats for
Hue and Saturation. -/
def cache_numerically_equal (s : State) : Bool :=
  (s.cha_on.value.bool_value == s.hk_targetOn) &&
  CFloat.feq (int_to_float s.cha_brightness.value.int_value) s.hk_targetBrightness &&
  CFloat.feq s.cha_hue.value.float_value s.hk_targetHue &&
  CFloat.feq s.cha_saturation.value.float_value s.hk_targetSat

/-! ## Facts about the float comparisons -/

namespace CFloat

theorem lt_fin_fin (a b : ℚ) : lt (fin a) (fin b) = decide (a < b) := rfl

theorem lt_negZero_fin (b : ℚ) : lt negZero (fin b) = decide (0 < b) := rfl

theorem lt_fin_negZero (a : ℚ) : lt (fin a) negZero = decide (a < 0) := rfl

theorem lt_ninf_fin (b : ℚ) : lt ninf (fin b) = true := rfl

theorem lt_fin_ninf (a : ℚ) : lt (fin a) ninf = false := rfl

theorem lt_pinf_fin (b : ℚ) : lt pinf (fin b) = false := rfl

theorem lt_fin_pinf (a : ℚ) : lt (fin a) pinf = true := rfl

theorem lt_nan_left (x : CFloat) : lt nan x = false := by cases x <;> rfl

theorem lt_nan_right (x : CFloat) : lt x nan = false := by cases x <;> rfl

theorem le_fin_fin (a b : ℚ) : le (fin a) (fin b) = decide (a ≤ b) := rfl

theorem le_fin_negZero (a : ℚ) : le (fin a) negZero = decide (a ≤ 0) := rfl

theorem le_negZero_fin (b : ℚ) : le negZero (fin b) = decide (0 ≤ b) := rfl

theorem le_nan_left (x : CFloat) : le nan x = false := by cases x <;> rfl

theorem le_nan_right (x : CFloat) : le x nan = false := by cases x <;> rfl

theorem feq_fin_fin (a b : ℚ) : feq (fin a) (fin b) = decide (a = b) := rfl

theorem feq_negZero_fin (b : ℚ) : feq negZero (fin b) = decide (0 = b) := rfl

theorem feq_nan_left (x : CFloat) : feq nan x = false := by cases x <;> rfl

theorem feq_nan_right (x : CFloat) : feq x nan = false := by cases x <;> rfl

/-- A float that is not NaN compares equal to itself. -/
theorem feq_self (x : CFloat) (hx : x ≠ nan) : feq x x = true := by
  cases x with
  | nan => exact absurd rfl hx
  | ninf => rfl
  | pinf => rfl
  | negZero => simp [feq]
  | fin q => simp [feq]

/-- NaN lies in no closed range. -/
theorem inRange_nan (lo hi : CFloat) : inRange lo hi nan = false := by
  simp [inRange, le_nan_left, le_nan_right]

end CFloat

/-! ## The clamps -/

/-- The cast `(float)b` is exact on `0..100`. -/
theorem int_to_float_small (b : Int) (h0 : 0 ≤ b) (h1 : b ≤ 100) :
    int_to_float b = CFloat.fin b := by
  have h : b.natAbs < 2 ^ 24 := by omega
  unfold int_to_float
  simp only [h, if_true]

/-- The integer clamp of `set_brightness` is `max(0, min(100, b))`. -/
theorem int_clamp_eq (b : Int) :
    (if (if b < 0 then 0 else b) > 100 then 100 else (if b < 0 then 0 else b))
      = clamp_int_spec 0 100 b := by
  unfold clamp_int_spec
  split_ifs <;> omega

/-- NaN passes through the float clamp unchanged: both comparisons are false. -/
theorem code_clamp_nan (hi : ℚ) : code_clamp hi CFloat.nan = CFloat.nan := by
  simp [code_clamp, CFloat.lt_nan_left, CFloat.lt_nan_right]

/-- On every float other than NaN the float clamp compares equal to
`max(0, min(hi, h))`. -/
theorem code_clamp_feq (hi : ℚ) (hhi : 0 ≤ hi) (h : CFloat) (hn : h ≠ CFloat.nan) :
    CFloat.feq (code_clamp hi h) (clamp_float_spec (CFloat.fin 0) (CFloat.fin hi) h) = true := by
  have h0 : ¬ hi < 0 := not_lt.mpr hhi
  cases h with
  | nan => exact absurd rfl hn
  | ninf =>
    simp [code_clamp, clamp_float_spec, fmax_spec, fmin_spec, CFloat.lt_ninf_fin, CFloat.lt_fin_fin,
      CFloat.lt_fin_ninf, CFloat.feq_fin_fin, h0]
  | pinf =>
    simp only [code_clamp, clamp_float_spec, fmax_spec, fmin_spec]
    simp [CFloat.lt_pinf_fin, CFloat.lt_fin_fin, CFloat.lt_fin_pinf, CFloat.feq_fin_fin]
    split_ifs <;> simp_all [CFloat.feq_fin_fin]
    linarith
  | negZero =>
    simp only [code_clamp, clamp_float_spec, fmax_spec, fmin_spec]
    simp [CFloat.lt_negZero_fin, CFloat.lt_fin_fin, CFloat.lt_fin_negZero, CFloat.feq_fin_fin, h0]
    split_ifs <;> simp_all [CFloat.feq_fin_fin, CFloat.feq_negZero_fin, CFloat.lt_negZero_fin, CFloat.lt_fin_negZero, CFloat.lt_fin_fin]
    linarith
  | fin q =>
    simp only [code_clamp, clamp_float_spec, fmax_spec, fmin_spec]
    simp [CFloat.lt_fin_fin]
    split_ifs <;> simp_all [CFloat.feq_fin_fin, CFloat.lt_fin_fin] <;> linarith

/-- On every float other than NaN the float clamp lands in `[0, hi]`. -/
theorem code_clamp_inRange (hi : ℚ) (hhi : 0 ≤ hi) (h : CFloat) (hn : h ≠ CFloat.nan) :
    CFloat.inRange (CFloat.fin 0) (CFloat.fin hi) (code_clamp hi h) = true := by
  have h0 : ¬ hi < 0 := not_lt.mpr hhi
  cases h with
  | nan => exact absurd rfl hn
  | ninf =>
    simp [code_clamp, CFloat.inRange, CFloat.lt_ninf_fin, CFloat.lt_fin_fin, CFloat.le_fin_fin, h0, hhi]
  | pinf =>
    simp [code_clamp, CFloat.inRange, CFloat.lt_pinf_fin, CFloat.lt_fin_pinf, CFloat.le_fin_fin, hhi]
  | negZero =>
    simp [code_clamp, CFloat.inRange, CFloat.lt_negZero_fin, CFloat.lt_fin_negZero, CFloat.le_fin_negZero, CFloat.le_negZero_fin,
      hhi, h0]
  | fin q =>
    simp only [code_clamp, CFloat.inRange]
    simp [CFloat.lt_fin_fin]
    split_ifs <;> simp_all [CFloat.le_fin_fin, CFloat.lt_fin_fin]

/-- The bridge hue after `set_hue` is the float clamp of the input at `360`. -/
theorem set_hue_targetHue (s : State) (v : homekit_value_t) :
    (set_hue s v).hk_targetHue = code_clamp 360 v.float_value := rfl

/-- The bridge saturation after `set_saturation` is the float clamp of the input
at `100`. -/
theorem set_saturation_targetSat (s : State) (v : homekit_value_t) :
    (set_saturation s v).hk_targetSat = code_clamp 100 v.float_value := rfl

/-- Hue clamp law away from NaN: the bridge hue compares equal to
`max(0, min(360, h))` and lies in `[0,360]`. -/
theorem set_hue_clamp_of_not_nan (s : State) (v : homekit_value_t)
    (hn : v.float_value ≠ CFloat.nan) :
    CFloat.feq (set_hue s v).hk_targetHue
        (clamp_float_spec (CFloat.fin 0) (CFloat.fin 360) v.float_value) = true ∧
      CFloat.inRange (CFloat.fin 0) (CFloat.fin 360) (set_hue s v).hk_targetHue = true := by
  rw [set_hue_targetHue]
  exact ⟨code_clamp_feq 360 (by norm_num) _ hn, code_clamp_inRange 360 (by norm_num) _ hn⟩

/-- Saturation clamp law away from NaN: the bridge saturation compares equal to
`max(0, min(100, s))` and lies in `[0,100]`. -/
theorem set_saturation_clamp_of_not_nan (s : State) (v : homekit_value_t)
    (hn : v.float_value ≠ CFloat.nan) :
    CFloat.feq (set_saturation s v).hk_targetSat
        (clamp_float_spec (CFloat.fin 0) (CFloat.fin 100) v.float_value) = true ∧
      CFloat.inRange (CFloat.fin 0) (CFloat.fin 100) (set_saturation s v).hk_targetSat = true := by
  rw [set_saturation_targetSat]
  exact ⟨code_clamp_feq 100 (by norm_num) _ hn, code_clamp_inRange 100 (by norm_num) _ hn⟩

/-! ## Frame lemmas for runs -/

/-- One event leaves every object other than the four bridge variables and the
four mutable characteristics as it was. -/
theorem step_static (s : State) (e : Event) :
    (step s e).cha_name = s.cha_name ∧ (step s e).cha_manu = s.cha_manu ∧
    (step s e).cha_sn = s.cha_sn ∧ (step s e).cha_model = s.cha_model ∧
    (step s e).cha_fw = s.cha_fw ∧ (step s e).cha_acc_name = s.cha_acc_name ∧
    (step s e).cha_ident = s.cha_ident ∧ (step s e).service_info = s.service_info ∧
    (step s e).service_light = s.service_light ∧ (step s e).accessory = s.accessory ∧
    (step s e).hk_config = s.hk_config := by
  cases e <;> exact ⟨rfl, rfl, rfl, rfl, rfl, rfl, rfl, rfl, rfl, rfl, rfl⟩

/-- A run leaves every object other than the four bridge variables and the four
mutable characteristics as it was. -/
theorem run_static (es : List Event) (s : State) :
    (run s es).cha_name = s.cha_name ∧ (run s es).cha_manu = s.cha_manu ∧
    (run s es).cha_sn = s.cha_sn ∧ (run s es).cha_model = s.cha_model ∧
    (run s es).cha_fw = s.cha_fw ∧ (run s es).cha_acc_name = s.cha_acc_name ∧
    (run s es).cha_ident = s.cha_ident ∧ (run s es).service_info = s.service_info ∧
    (run s es).service_light = s.service_light ∧ (run s es).accessory = s.accessory ∧
    (run s es).hk_config = s.hk_config := by
  induction es generalizing s with
  | nil => exact ⟨rfl, rfl, rfl, rfl, rfl, rfl, rfl, rfl, rfl, rfl, rfl⟩
  | cons e es ih =>
    have h1 := ih (step s e)
    have h2 := step_static s e
    simp only [run, List.foldl_cons] at h1 ⊢
    obtain ⟨a1, a2, a3, a4, a5, a6, a7, a8, a9, a10, a11⟩ := h1
    obtain ⟨b1, b2, b3, b4, b5, b6, b7, b8, b9, b10, b11⟩ := h2
    exact ⟨a1.trans b1, a2.trans b2, a3.trans b3, a4.trans b4, a5.trans b5, a6.trans b6,
      a7.trans b7, a8.trans b8, a9.trans b9, a10.trans b10, a11.trans b11⟩

/-- One event whose value carries no NaN keeps the bridge inside its ranges. -/
theorem step_in_range (s : State) (e : Event) (hs : bridge_in_range s = true)
    (he : e.value.float_value ≠ CFloat.nan) : bridge_in_range (step s e) = true := by
  simp only [bridge_in_range, Bool.and_eq_true] at hs ⊢
  obtain ⟨⟨hb, hh⟩, hsat⟩ := hs
  cases e with
  | write_on v => exact ⟨⟨hb, hh⟩, hsat⟩
  | identify v => exact ⟨⟨hb, hh⟩, hsat⟩
  | write_hue v => exact ⟨⟨hb, (set_hue_clamp_of_not_nan s v he).2⟩, hsat⟩
  | write_saturation v => exact ⟨⟨hb, hh⟩, (set_saturation_clamp_of_not_nan s v he).2⟩
  | write_brightness v =>
    refine ⟨⟨?_, hh⟩, hsat⟩
    show CFloat.inRange _ _ (int_to_float _) = true
    rw [int_clamp_eq, int_to_float_small _ (by unfold clamp_int_spec; omega)
      (by unfold clamp_int_spec; omega)]
    have h0 : (0 : ℚ) ≤ ((clamp_int_spec 0 100 v.int_value : Int) : ℚ) := by
      have : (0 : Int) ≤ clamp_int_spec 0 100 v.int_value := by unfold clamp_int_spec; omega
      exact_mod_cast this
    have h1 : ((clamp_int_spec 0 100 v.int_value : Int) : ℚ) ≤ 100 := by
      have : clamp_int_spec 0 100 v.int_value ≤ (100 : Int) := by unfold clamp_int_spec; omega
      exact_mod_cast this
    simp [CFloat.inRange, CFloat.le_fin_fin, h0, h1]

/-- From startup, a run none of whose values carries a NaN keeps the bridge
inside its ranges. -/
theorem run_in_range_of_no_nan (es : List Event)
    (he : ∀ e ∈ es, e.value.float_value ≠ CFloat.nan) :
    bridge_in_range (run hk_init es) = true := by
  have key : ∀ (l : List Event) (s : State), bridge_in_range s = true →
      (∀ e ∈ l, e.value.float_value ≠ CFloat.nan) → bridge_in_range (run s l) = true := by
    intro l
    induction l with
    | nil => intro s hs _; exact hs
    | cons e l ih =>
      intro s hs hl
      simp only [run, List.foldl_cons]
      exact ih (step s e) (step_in_range s e hs (hl e (List.mem_cons_self e l)))
        (fun x hx => hl x (List.mem_cons_of_mem e hx))
  refine key es hk_init ?_ he
  simp [bridge_in_range, hk_init, CFloat.inRange, CFloat.le_fin_fin]

/-- Scenario of the spec: writing Hue=400 leaves the bridge hue at 360. -/
theorem set_hue_400 (s : State) :
    (set_hue s (HOMEKIT_FLOAT (CFloat.fin 400))).hk_targetHue = CFloat.fin 360 := by
  rw [set_hue_targetHue]
  simp only [code_clamp, HOMEKIT_FLOAT, CFloat.lt_fin_fin]
  norm_num [CFloat.lt_fin_fin]

/-- Scenario of the spec: writing Saturation=-20 leaves the bridge saturation
at 0. -/
theorem set_saturation_neg20 (s : State) :
    (set_saturation s (HOMEKIT_FLOAT (CFloat.fin (-20)))).hk_targetSat = CFloat.fin 0 := by
  rw [set_saturation_targetSat]
  simp only [code_clamp, HOMEKIT_FLOAT, CFloat.lt_fin_fin]
  norm_num [CFloat.lt_fin_fin]

/-- What `set_brightness` stores: the float of value `max(0, min(100, b))` in
the bridge and the integer `max(0, min(100, b))` in the characteristic. -/
theorem set_brightness_fields (s : State) (v : homekit_value_t) :
    (set_brightness s v).hk_targetBrightness
        = CFloat.fin ((clamp_int_spec 0 100 v.int_value : Int) : ℚ) ∧
    (set_brightness s v).cha_brightness.value.int_value
        = clamp_int_spec 0 100 v.int_value := by
  constructor
  · show int_to_float _ = _
    rw [int_clamp_eq, int_to_float_small _ (by unfold clamp_int_spec; omega)
      (by unfold clamp_int_spec; omega)]
  · exact int_clamp_eq v.int_value

/-! ## The claims -/

/-- C1: for every prior state and every value whose integer member is `b`,
`set_brightness` leaves `hk_targetBrightness` equal to the float of value
`max(0, min(100, b))` and `cha_brightness.value.int_value` equal to that same
clamped integer; `b = 150` gives 100 and `b = -5` gives 0. -/
theorem set_brightness_clamps :
    (∀ (s : State) (v : homekit_value_t),
      (set_brightness s v).hk_targetBrightness
          = CFloat.fin ((clamp_int_spec 0 100 v.int_value : Int) : ℚ) ∧
      (set_brightness s v).cha_brightness.value.int_value
          = clamp_int_spec 0 100 v.int_value) ∧
    (∀ s : State, (set_brightness s (HOMEKIT_INT 150)).hk_targetBrightness = CFloat.fin 100 ∧
      (set_brightness s (HOMEKIT_INT 150)).cha_brightness.value.int_value = 100) ∧
    (∀ s : State, (set_brightness s (HOMEKIT_INT (-5))).hk_targetBrightness = CFloat.fin 0 ∧
      (set_brightness s (HOMEKIT_INT (-5))).cha_brightness.value.int_value = 0) := by
  refine ⟨set_brightness_fields, fun s => ?_, fun s => ?_⟩
  · have h := set_brightness_fields s (HOMEKIT_INT 150)
    have e : clamp_int_spec 0 100 (HOMEKIT_INT 150).int_value = 100 := by decide
    rw [e] at h
    exact ⟨by simpa using h.1, h.2⟩
  · have h := set_brightness_fields s (HOMEKIT_INT (-5))
    have e : clamp_int_spec 0 100 (HOMEKIT_INT (-5)).int_value = 0 := by decide
    rw [e] at h
    exact ⟨by simpa using h.1, h.2⟩

/-- C2, at the input that breaks it: `set_hue` called with a NaN stores NaN in
`hk_targetHue` (both comparisons of the clamp are false on NaN), while
`max(0, min(360, NaN))` is 360; the stored value compares equal to no float
and lies outside `[0,360]`. -/
theorem set_hue_nan_not_clamped (s : State) :
    (set_hue s (HOMEKIT_FLOAT CFloat.nan)).hk_targetHue = CFloat.nan ∧
    clamp_float_spec (CFloat.fin 0) (CFloat.fin 360) CFloat.nan = CFloat.fin 360 ∧
    (∀ x : CFloat, CFloat.feq (set_hue s (HOMEKIT_FLOAT CFloat.nan)).hk_targetHue x = false) ∧
    CFloat.inRange (CFloat.fin 0) (CFloat.fin 360)
      (set_hue s (HOMEKIT_FLOAT CFloat.nan)).hk_targetHue = false := by
  have h : (set_hue s (HOMEKIT_FLOAT CFloat.nan)).hk_targetHue = CFloat.nan := by
    rw [set_hue_targetHue]
    exact code_clamp_nan 360
  rw [h]
  refine ⟨rfl, ?_, CFloat.feq_nan_left, CFloat.inRange_nan _ _⟩
  simp [clamp_float_spec, fmax_spec, fmin_spec, CFloat.lt_nan_left, CFloat.lt_fin_fin]

/-- C3, at the input that breaks it: `set_saturation` called with a NaN stores
NaN in `hk_targetSat`, while `max(0, min(100, NaN))` is 100; the stored value
compares equal to no float and lies outside `[0,100]`. -/
theorem set_saturation_nan_not_clamped (s : State) :
    (set_saturation s (HOMEKIT_FLOAT CFloat.nan)).hk_targetSat = CFloat.nan ∧
    clamp_float_spec (CFloat.fin 0) (CFloat.fin 100) CFloat.nan = CFloat.fin 100 ∧
    (∀ x : CFloat,
      CFloat.feq (set_saturation s (HOMEKIT_FLOAT CFloat.nan)).hk_targetSat x = false) ∧
    CFloat.inRange (CFloat.fin 0) (CFloat.fin 100)
      (set_saturation s (HOMEKIT_FLOAT CFloat.nan)).hk_targetSat = false := by
  have h : (set_saturation s (HOMEKIT_FLOAT CFloat.nan)).hk_targetSat = CFloat.nan := by
    rw [set_saturation_targetSat]
    exact code_clamp_nan 100
  rw [h]
  refine ⟨rfl, ?_, CFloat.feq_nan_left, CFloat.inRange_nan _ _⟩
  simp [clamp_float_spec, fmax_spec, fmin_spec, CFloat.lt_nan_left, CFloat.lt_fin_fin]

/-- C4: for every prior state and value, `set_on` leaves `hk_targetOn` equal to
the written boolean (true after writing true, false after writing false), and
running the same write twice gives the same state as running it once. -/
theorem set_on_stores_and_idempotent :
    (∀ (s : State) (v : homekit_value_t),
      (set_on s v).hk_targetOn = v.bool_value ∧ set_on (set_on s v) v = set_on s v) ∧
    (∀ s : State, (set_on s (HOMEKIT_BOOL true)).hk_targetOn = true) ∧
    (∀ s : State, (set_on s (HOMEKIT_BOOL false)).hk_targetOn = false) :=
  ⟨fun _ _ => ⟨rfl, rfl⟩, fun _ => rfl, fun _ => rfl⟩

/-- C5, at a run that breaks it: from startup, one Hue write carrying NaN leaves
`hk_targetHue` at NaN, outside `[0,360]`, and one Saturation write carrying NaN
leaves `hk_targetSat` at NaN, outside `[0,100]`; the range condition on the
bridge is false in both reachable states. -/
theorem run_write_nan_leaves_range :
    (run hk_init [Event.write_hue (HOMEKIT_FLOAT CFloat.nan)]).hk_targetHue = CFloat.nan ∧
    bridge_in_range (run hk_init [Event.write_hue (HOMEKIT_FLOAT CFloat.nan)]) = false ∧
    (run hk_init [Event.write_saturation (HOMEKIT_FLOAT CFloat.nan)]).hk_targetSat
      = CFloat.nan ∧
    bridge_in_range (run hk_init [Event.write_saturation (HOMEKIT_FLOAT CFloat.nan)])
      = false := by
  have h1 : (run hk_init [Event.write_hue (HOMEKIT_FLOAT CFloat.nan)]).hk_targetHue
      = CFloat.nan := code_clamp_nan 360
  have h2 : (run hk_init [Event.write_saturation (HOMEKIT_FLOAT CFloat.nan)]).hk_targetSat
      = CFloat.nan := code_clamp_nan 100
  refine ⟨h1, ?_, h2, ?_⟩
  · simp only [bridge_in_range, h1, CFloat.inRange_nan, Bool.and_false, Bool.false_and]
  · simp only [bridge_in_range, h2, CFloat.inRange_nan, Bool.and_false]

/-- After each write handler returns, the cached value of its characteristic
and its bridge variable hold the same datum, for every prior state and every
input: the same boolean for On, the same float for Hue and for Saturation, and
for Brightness the bridge float is exactly the cached integer (as a float and
as its cast). -/
theorem setters_sync_cache_with_bridge (s : State) (v : homekit_value_t) :
    (set_on s v).cha_on.value.bool_value = (set_on s v).hk_targetOn ∧
    (set_brightness s v).hk_targetBrightness
      = CFloat.fin (((set_brightness s v).cha_brightness.value.int_value : Int) : ℚ) ∧
    (set_brightness s v).hk_targetBrightness
      = int_to_float (set_brightness s v).cha_brightness.value.int_value ∧
    (set_hue s v).cha_hue.value.float_value = (set_hue s v).hk_targetHue ∧
    (set_saturation s v).cha_saturation.value.float_value
      = (set_saturation s v).hk_targetSat := by
  refine ⟨rfl, ?_, rfl, rfl, rfl⟩
  rw [(set_brightness_fields s v).1, (set_brightness_fields s v).2]

/-- C7: in the startup state, before any handler has run, the bridge reads
power = false, brightness = 100, hue = 0 and saturation = 0. -/
theorem startup_defaults :
    hk_init.hk_targetOn = false ∧
    hk_init.hk_targetBrightness = CFloat.fin 100 ∧
    hk_init.hk_targetHue = CFloat.fin 0 ∧
    hk_init.hk_targetSat = CFloat.fin 0 ∧
    (run hk_init []).hk_targetOn = false ∧
    (run hk_init []).hk_targetBrightness = CFloat.fin 100 ∧
    (run hk_init []).hk_targetHue = CFloat.fin 0 ∧
    (run hk_init []).hk_targetSat = CFloat.fin 0 :=
  ⟨rfl, rfl, rfl, rfl, rfl, rfl, rfl, rfl⟩

/-- C8: for every state and every trigger value, `on_identify` (the callback
stored in `cha_ident`) leaves the bridge power, brightness, hue and saturation
unchanged; it returns the state it was given. -/
theorem on_identify_frame :
    hk_init.cha_ident.callback = some CallbackFn.on_identify ∧
    ∀ (s : State) (v : homekit_value_t),
      (on_identify s v).hk_targetOn = s.hk_targetOn ∧
      (on_identify s v).hk_targetBrightness = s.hk_targetBrightness ∧
      (on_identify s v).hk_targetHue = s.hk_targetHue ∧
      (on_identify s v).hk_targetSat = s.hk_targetSat ∧
      on_identify s v = s ∧
      CallbackFn.on_identify.call s v = s ∧
      step s (Event.identify v) = s :=
  ⟨rfl, fun _ _ => ⟨rfl, rfl, rfl, rfl, rfl, rfl, rfl⟩⟩

/-- C9: each handler writes only its own bridge variable and its own
characteristic: for every state and input, `set_on` leaves bridge brightness,
hue and saturation and the Brightness, Hue and Saturation characteristics
unchanged; `set_brightness` leaves power, hue, saturation and the On, Hue,
Saturation characteristics unchanged; `set_hue` leaves power, brightness,
saturation and the On, Brightness, Saturation characteristics unchanged;
`set_saturation` leaves power, brightness, hue and the On, Brightness, Hue
characteristics unchanged. -/
theorem setters_frame (s : State) (v : homekit_value_t) :
    ((set_on s v).hk_targetBrightness = s.hk_targetBrightness ∧
      (set_on s v).hk_targetHue = s.hk_targetHue ∧
      (set_on s v).hk_targetSat = s.hk_targetSat ∧
      (set_on s v).cha_brightness = s.cha_brightness ∧
      (set_on s v).cha_hue = s.cha_hue ∧
      (set_on s v).cha_saturation = s.cha_saturation) ∧
    ((set_brightness s v).hk_targetOn = s.hk_targetOn ∧
      (set_brightness s v).hk_targetHue = s.hk_targetHue ∧
      (set_brightness s v).hk_targetSat = s.hk_targetSat ∧
      (set_brightness s v).cha_on = s.cha_on ∧
      (set_brightness s v).cha_hue = s.cha_hue ∧
      (set_brightness s v).cha_saturation = s.cha_saturation) ∧
    ((set_hue s v).hk_targetOn = s.hk_targetOn ∧
      (set_hue s v).hk_targetBrightness = s.hk_targetBrightness ∧
      (set_hue s v).hk_targetSat = s.hk_targetSat ∧
      (set_hue s v).cha_on = s.cha_on ∧
      (set_hue s v).cha_brightness = s.cha_brightness ∧
      (set_hue s v).cha_saturation = s.cha_saturation) ∧
    ((set_saturation s v).hk_targetOn = s.hk_targetOn ∧
      (set_saturation s v).hk_targetBrightness = s.hk_targetBrightness ∧
      (set_saturation s v).hk_targetHue = s.hk_targetHue ∧
      (set_saturation s v).cha_on = s.cha_on ∧
      (set_saturation s v).cha_brightness = s.cha_brightness ∧
      (set_saturation s v).cha_hue = s.cha_hue) :=
  ⟨⟨rfl, rfl, rfl, rfl, rfl, rfl⟩, ⟨rfl, rfl, rfl, rfl, rfl, rfl⟩,
    ⟨rfl, rfl, rfl, rfl, rfl, rfl⟩, ⟨rfl, rfl, rfl, rfl, rfl, rfl⟩⟩

/-- C10: in every state reached from startup, each read-only identity
characteristic (the two Name objects, Manufacturer, Serial Number, Model,
Firmware Revision) has no write permission and no write handler, and a
registry write to it with any value returns a permission error and leaves the
whole state, hence its value, unchanged. -/
theorem write_identity_rejected (es : List Event) (c : CharRef) (v : homekit_value_t)
    (hc : c ∈ identity_chars) :
    (get (run hk_init es) c).permissions.paired_write = false ∧
    (get (run hk_init es) c).setter = none ∧
    write (run hk_init es) c v = (WriteStatus.permission_error, run hk_init es) ∧
    (get (write (run hk_init es) c v).2 c).value = (get (run hk_init es) c).value := by
  obtain ⟨h1, h2, h3, h4, h5, h6, _⟩ := run_static es hk_init
  have key : ∀ ch : homekit_characteristic_t, get (run hk_init es) c = ch →
      ch.permissions.paired_write = false → ch.setter = none →
      (get (run hk_init es) c).permissions.paired_write = false ∧
      (get (run hk_init es) c).setter = none ∧
      write (run hk_init es) c v = (WriteStatus.permission_error, run hk_init es) ∧
      (get (write (run hk_init es) c v).2 c).value = (get (run hk_init es) c).value := by
    intro ch hg hp hs
    have hw : write (run hk_init es) c v = (WriteStatus.permission_error, run hk_init es) := by
      simp [write, hg, hp]
    refine ⟨by rw [hg]; exact hp, by rw [hg]; exact hs, hw, by rw [hw]⟩
  simp only [identity_chars, List.mem_cons, List.mem_singleton, List.not_mem_nil,
    or_false] at hc
  rcases hc with rfl | rfl | rfl | rfl | rfl | rfl
  · exact key _ h1 rfl rfl
  · exact key _ h6 rfl rfl
  · exact key _ h2 rfl rfl
  · exact key _ h3 rfl rfl
  · exact key _ h4 rfl rfl
  · exact key _ h5 rfl rfl

/-- Instance of C10: after an On write, a write of "ACME" to Manufacturer is
rejected with a permission error and the state is the one before the write. -/
theorem write_identity_rejected_witness :
    CharRef.cha_manu ∈ identity_chars ∧
    write (run hk_init [Event.write_on (HOMEKIT_BOOL true)]) CharRef.cha_manu
        (HOMEKIT_STRING "ACME")
      = (WriteStatus.permission_error, run hk_init [Event.write_on (HOMEKIT_BOOL true)]) :=
  ⟨by decide,
    (write_identity_rejected [Event.write_on (HOMEKIT_BOOL true)] CharRef.cha_manu
      (HOMEKIT_STRING "ACME") (by decide)).2.2.1⟩

/-! ## Shared lemmas for the registry claims -/

/-- A characteristic agrees with itself outside `.value`. -/
theorem same_except_value_refl (a : homekit_characteristic_t) : same_except_value a a :=
  ⟨rfl, rfl, rfl, rfl, rfl, rfl, rfl, rfl, rfl⟩

/-- Agreement outside `.value` composes. -/
theorem same_except_value_trans {a b c : homekit_characteristic_t}
    (h1 : same_except_value a b) (h2 : same_except_value b c) : same_except_value a c := by
  obtain ⟨a1, a2, a3, a4, a5, a6, a7, a8, a9⟩ := h1
  obtain ⟨b1, b2, b3, b4, b5, b6, b7, b8, b9⟩ := h2
  exact ⟨a1.trans b1, a2.trans b2, a3.trans b3, a4.trans b4, a5.trans b5, a6.trans b6,
    a7.trans b7, a8.trans b8, a9.trans b9⟩

/-- One event changes no field of any characteristic other than `.value`. -/
theorem step_topology (s : State) (e : Event) (c : CharRef) :
    same_except_value (get (step s e) c) (get s c) := by
  cases e <;> cases c <;> exact ⟨rfl, rfl, rfl, rfl, rfl, rfl, rfl, rfl, rfl⟩

/-- Running one more event first. -/
theorem run_cons (s : State) (e : Event) (es : List Event) :
    run s (e :: es) = run (step s e) es := rfl

/-- A run changes no field of any characteristic other than `.value`. -/
theorem run_topology (es : List Event) (s : State) (c : CharRef) :
    same_except_value (get (run s es) c) (get s c) := by
  induction es generalizing s with
  | nil => exact same_except_value_refl _
  | cons e es ih =>
    rw [run_cons]
    exact same_except_value_trans (ih (step s e)) (step_topology s e c)

/-- Latest-value-wins for one field `p` of the state: when every event that
`sel` selects sets `p` to `f` of its value whatever the state, and every other
event leaves `p` alone, then after a run `p` is `f` of the last selected value,
or its starting value when nothing was selected. -/
theorem run_latest {α : Type} (p : State → α) (sel : Event → Option homekit_value_t)
    (f : homekit_value_t → α)
    (hw : ∀ (s : State) (e : Event) (v : homekit_value_t), sel e = some v → p (step s e) = f v)
    (hk : ∀ (s : State) (e : Event), sel e = none → p (step s e) = p s)
    (es : List Event) (s : State) :
    p (run s es) = latest (p s) f (last_write sel es) := by
  induction es generalizing s with
  | nil => rfl
  | cons e es ih =>
    rw [run_cons, ih (step s e)]
    simp only [last_write]
    cases h : last_write sel es with
    | some v => rfl
    | none =>
      cases h2 : sel e with
      | none => exact hk s e h2
      | some v => exact hw s e v h2

/-- One event keeps the cached values and the bridge in step. -/
theorem step_synced (s : State) (e : Event) (hs : cache_synced s) :
    cache_synced (step s e) := by
  obtain ⟨h1, h2, h3, h4, h5⟩ := hs
  cases e with
  | write_on v => exact ⟨rfl, h2, h3, h4, h5⟩
  | write_brightness v =>
    refine ⟨h1, ?_, rfl, h4, h5⟩
    show (set_brightness s v).hk_targetBrightness
      = CFloat.fin (((set_brightness s v).cha_brightness.value.int_value : Int) : ℚ)
    rw [(set_brightness_fields s v).1, (set_brightness_fields s v).2]
  | write_hue v => exact ⟨h1, h2, h3, rfl, h5⟩
  | write_saturation v => exact ⟨h1, h2, h3, h4, rfl⟩
  | identify v => exact ⟨h1, h2, h3, h4, h5⟩

/-- The startup state has the cached values and the bridge in step. -/
theorem hk_init_synced : cache_synced hk_init := by
  refine ⟨rfl, ?_, ?_, rfl, rfl⟩
  · show CFloat.fin 100 = CFloat.fin (((100 : Int) : ℚ))
    norm_num
  · show CFloat.fin 100 = int_to_float 100
    rw [int_to_float_small 100 (by norm_num) (by norm_num)]
    norm_num

/-- A run keeps the cached values and the bridge in step. -/
theorem run_synced (es : List Event) (s : State) (hs : cache_synced s) :
    cache_synced (run s es) := by
  induction es generalizing s with
  | nil => exact hs
  | cons e es ih =>
    rw [run_cons]
    exact ih (step s e) (step_synced s e hs)

/-- A run from startup leaves the type-identifier of every characteristic as
initialised. -/
theorem run_type (es : List Event) (c : CharRef) :
    (get (run hk_init es) c).type = (get hk_init c).type :=
  (run_topology es hk_init c).1

/-- A run from startup leaves the permissions of every characteristic as
initialised. -/
theorem run_permissions (es : List Event) (c : CharRef) :
    (get (run hk_init es) c).permissions = (get hk_init c).permissions :=
  (run_topology es hk_init c).2.2.2.1

/-- A run from startup leaves the declared range of every characteristic as
initialised. -/
theorem run_range (es : List Event) (c : CharRef) :
    (get (run hk_init es) c).min_value = (get hk_init c).min_value ∧
    (get (run hk_init es) c).max_value = (get hk_init c).max_value :=
  ⟨(run_topology es hk_init c).2.2.2.2.1, (run_topology es hk_init c).2.2.2.2.2.1⟩

/-- A run from startup leaves the setter of every characteristic as
initialised. -/
theorem run_setter (es : List Event) (c : CharRef) :
    (get (run hk_init es) c).setter = (get hk_init c).setter :=
  (run_topology es hk_init c).2.2.2.2.2.2.2.1

/-- A run from startup leaves the callback of every characteristic as
initialised. -/
theorem run_callback (es : List Event) (c : CharRef) :
    (get (run hk_init es) c).callback = (get hk_init c).callback :=
  (run_topology es hk_init c).2.2.2.2.2.2.2.2

/-- A run from startup leaves both service objects as initialised. -/
theorem run_service (es : List Event) (sv : ServiceRef) :
    get_service (run hk_init es) sv = get_service hk_init sv := by
  obtain ⟨_, _, _, _, _, _, _, hsi, hsl, _, _⟩ := run_static es hk_init
  cases sv
  · exact hsi
  · exact hsl

/-- A run from startup leaves the type-identifiers grouped by each service as
initialised. -/
theorem run_service_types (es : List Event) (sv : ServiceRef) :
    service_types (run hk_init es) sv = service_types hk_init sv := by
  unfold service_types
  rw [run_service es sv]
  exact List.map_congr_left (fun c _ => run_type es c)

/-! ## The registry claims -/

/-- Last write wins, in terms of what the handlers store.  For every starting
state and every finite sequence of events, each bridge field holds what its handler stores for the last write
to its own characteristic (the written boolean for power, the float of value
`max(0, min(100, b))` for brightness, the handler's clamp at 360 of the written
float for hue and at 100 for saturation), whatever the earlier writes and the
interleaved writes to other characteristics were; a field never written holds
its starting value. -/
theorem latest_value_wins (s : State) (es : List Event) :
    (run s es).hk_targetOn
      = latest s.hk_targetOn (fun v => v.bool_value) (last_write Event.on_write es) ∧
    (run s es).hk_targetBrightness
      = latest s.hk_targetBrightness
          (fun v => CFloat.fin ((clamp_int_spec 0 100 v.int_value : Int) : ℚ))
          (last_write Event.brightness_write es) ∧
    (run s es).hk_targetHue
      = latest s.hk_targetHue (fun v => code_clamp 360 v.float_value)
          (last_write Event.hue_write es) ∧
    (run s es).hk_targetSat
      = latest s.hk_targetSat (fun v => code_clamp 100 v.float_value)
          (last_write Event.saturation_write es) := by
  refine ⟨?_, ?_, ?_, ?_⟩
  · refine run_latest (fun t => t.hk_targetOn) Event.on_write _ ?_ ?_ es s
    · intro t e v h
      cases e <;> simp only [Event.on_write, Option.some.injEq] at h <;> try cases h
      rfl
    · intro t e h
      cases e <;> first | rfl | cases h
  · refine run_latest (fun t => t.hk_targetBrightness) Event.brightness_write _ ?_ ?_ es s
    · intro t e v h
      cases e <;> simp only [Event.brightness_write, Option.some.injEq] at h <;> try cases h
      exact (set_brightness_fields t _).1
    · intro t e h
      cases e <;> first | rfl | cases h
  · refine run_latest (fun t => t.hk_targetHue) Event.hue_write _ ?_ ?_ es s
    · intro t e v h
      cases e <;> simp only [Event.hue_write, Option.some.injEq] at h <;> try cases h
      rfl
    · intro t e h
      cases e <;> first | rfl | cases h
  · refine run_latest (fun t => t.hk_targetSat) Event.saturation_write _ ?_ ?_ es s
    · intro t e v h
      cases e <;> simp only [Event.saturation_write, Option.some.injEq] at h <;> try cases h
      rfl
    · intro t e h
      cases e <;> first | rfl | cases h

/-- C12: the topology is fixed.  For every state, each write handler and the
Identify callback (one event), and hence every run, leave the type,
description, format, permissions, min/max/step range, setter and callback of
every characteristic unchanged, leave the seven characteristics other than On,
Brightness, Hue and Saturation unchanged altogether, and leave both services
with their characteristic lists, the accessory with its service list and the
server configuration with its accessory list unchanged: only the `.value` of
On, Brightness, Hue and Saturation can differ. -/
theorem topology_fixed (s : State) (e : Event) (es : List Event) :
    (∀ c : CharRef, same_except_value (get (step s e) c) (get s c)) ∧
    ((step s e).cha_name = s.cha_name ∧ (step s e).cha_manu = s.cha_manu ∧
      (step s e).cha_sn = s.cha_sn ∧ (step s e).cha_model = s.cha_model ∧
      (step s e).cha_fw = s.cha_fw ∧ (step s e).cha_acc_name = s.cha_acc_name ∧
      (step s e).cha_ident = s.cha_ident ∧ (step s e).service_info = s.service_info ∧
      (step s e).service_light = s.service_light ∧ (step s e).accessory = s.accessory ∧
      (step s e).hk_config = s.hk_config) ∧
    (∀ c : CharRef, same_except_value (get (run s es) c) (get s c)) ∧
    ((run s es).cha_name = s.cha_name ∧ (run s es).cha_manu = s.cha_manu ∧
      (run s es).cha_sn = s.cha_sn ∧ (run s es).cha_model = s.cha_model ∧
      (run s es).cha_fw = s.cha_fw ∧ (run s es).cha_acc_name = s.cha_acc_name ∧
      (run s es).cha_ident = s.cha_ident ∧ (run s es).service_info = s.service_info ∧
      (run s es).service_light = s.service_light ∧ (run s es).accessory = s.accessory ∧
      (run s es).hk_config = s.hk_config) :=
  ⟨step_topology s e, step_static s e, run_topology es s, run_static es s⟩

/-- C13: in the startup state and in every state reached from it, `hk_config`
lists exactly one accessory; its services are Accessory Information and
Lightbulb; the Lightbulb service groups exactly `cha_on`, `cha_brightness`,
`cha_hue`, `cha_saturation`, `cha_name`, of types On, Brightness, Hue,
Saturation, Name in that order; and the setter of each of the four mutable
characteristics is its own handler. -/
theorem config_wiring (es : List Event) :
    (run hk_init es).hk_config.accessories = [AccessoryRef.accessory] ∧
    (run hk_init es).hk_config.accessories.length = 1 ∧
    (get_accessory (run hk_init es) AccessoryRef.accessory).services
      = [ServiceRef.service_info, ServiceRef.service_light] ∧
    (get_service (run hk_init es) ServiceRef.service_info).type
      = ServiceType.HOMEKIT_SERVICE_ACCESSORY_INFORMATION ∧
    (get_service (run hk_init es) ServiceRef.service_light).type
      = ServiceType.HOMEKIT_SERVICE_LIGHTBULB ∧
    (get_service (run hk_init es) ServiceRef.service_light).characteristics
      = [CharRef.cha_on, CharRef.cha_brightness, CharRef.cha_hue, CharRef.cha_saturation,
          CharRef.cha_name] ∧
    service_types (run hk_init es) ServiceRef.service_light
      = [CharacteristicType.HOMEKIT_CHARACTERISTIC_ON,
          CharacteristicType.HOMEKIT_CHARACTERISTIC_BRIGHTNESS,
          CharacteristicType.HOMEKIT_CHARACTERISTIC_HUE,
          CharacteristicType.HOMEKIT_CHARACTERISTIC_SATURATION,
          CharacteristicType.HOMEKIT_CHARACTERISTIC_NAME] ∧
    (get (run hk_init es) CharRef.cha_on).setter = some SetterFn.set_on ∧
    (get (run hk_init es) CharRef.cha_brightness).setter = some SetterFn.set_brightness ∧
    (get (run hk_init es) CharRef.cha_hue).setter = some SetterFn.set_hue ∧
    (get (run hk_init es) CharRef.cha_saturation).setter = some SetterFn.set_saturation ∧
    SetterFn.set_on.call = set_on ∧ SetterFn.set_brightness.call = set_brightness ∧
    SetterFn.set_hue.call = set_hue ∧ SetterFn.set_saturation.call = set_saturation := by
  obtain ⟨_, _, _, _, _, _, _, _, _, hacc, hcfg⟩ := run_static es hk_init
  have hlen : (run hk_init es).hk_config.accessories.length = 1 := by rw [hcfg]; rfl
  have hsv : (get_accessory (run hk_init es) AccessoryRef.accessory).services
      = [ServiceRef.service_info, ServiceRef.service_light] := by
    show (run hk_init es).accessory.services = _
    rw [hacc]; rfl
  refine ⟨by rw [hcfg]; rfl, hlen, hsv, by rw [run_service]; rfl, by rw [run_service]; rfl,
    by rw [run_service]; rfl, by rw [run_service_types]; rfl,
    by rw [run_setter]; rfl, by rw [run_setter]; rfl, by rw [run_setter]; rfl,
    by rw [run_setter]; rfl, rfl, rfl, rfl, rfl⟩

/-- C14: in the startup state and in every state reached from it, within each
service (Accessory Information and Lightbulb) the type-identifiers of the
grouped characteristics are pairwise distinct. -/
theorem service_types_nodup (es : List Event) (sv : ServiceRef) :
    (service_types (run hk_init es) sv).Nodup := by
  rw [run_service_types]
  cases sv <;> decide

/-- C15: in the startup state and in every state reached from it, the Identify
characteristic has write permission and neither read nor notify permission,
carries the callback `on_identify` and no setter, and each of the other
identity characteristics (the two Name objects, Manufacturer, Serial Number,
Model, Firmware Revision) has no write permission. -/
theorem identify_write_only (es : List Event) :
    (get (run hk_init es) CharRef.cha_ident).permissions.paired_write = true ∧
    (get (run hk_init es) CharRef.cha_ident).permissions.paired_read = false ∧
    (get (run hk_init es) CharRef.cha_ident).permissions.notify = false ∧
    (get (run hk_init es) CharRef.cha_ident).callback = some CallbackFn.on_identify ∧
    (get (run hk_init es) CharRef.cha_ident).setter = none ∧
    identity_chars.all (fun c => !(get (run hk_init es) c).permissions.paired_write) = true := by
  have hf : (fun c => !(get (run hk_init es) c).permissions.paired_write)
      = (fun c => !(get hk_init c).permissions.paired_write) := by
    funext c
    rw [run_permissions]
  refine ⟨by rw [run_permissions]; rfl, by rw [run_permissions]; rfl,
    by rw [run_permissions]; rfl, by rw [run_callback]; rfl, by rw [run_setter]; rfl, ?_⟩
  rw [hf]
  decide

/-- C16 as stated fails: the pairing credential of the startup configuration
does not have ten decimal digits (it has eight), so it is not a 10-digit code
in the format `NNN-NN-NNN`. -/
theorem password_not_ten_digits :
    ¬ (digit_count hk_init.hk_config.password = 10 ∧
      is_setup_code_format hk_init.hk_config.password = true) := by
  decide

/-- C16, amended: in the startup state and in every state reached from it,
`hk_config.password` is the fixed string "111-22-333": ten characters in the
format `NNN-NN-NNN` with every `N` a decimal digit, eight digits in all. -/
theorem password_setup_code (es : List Event) :
    (run hk_init es).hk_config.password = "111-22-333" ∧
    is_setup_code_format (run hk_init es).hk_config.password = true ∧
    digit_count (run hk_init es).hk_config.password = 8 ∧
    (run hk_init es).hk_config.password.length = 10 := by
  obtain ⟨_, _, _, _, _, _, _, _, _, _, hcfg⟩ := run_static es hk_init
  rw [hcfg]
  decide

/-- The cached integer after `set_brightness` lies in the range declared on
`cha_brightness`, for every input and every state reached from startup. -/
theorem brightness_cached_in_declared_range (es : List Event) (v : homekit_value_t) :
    in_declared_range (set_brightness (run hk_init es) v).cha_brightness
      (int_to_float (set_brightness (run hk_init es) v).cha_brightness.value.int_value)
      = true := by
  have hmin : (set_brightness (run hk_init es) v).cha_brightness.min_value
      = some (CFloat.fin 0) := (run_range es CharRef.cha_brightness).1
  have hmax : (set_brightness (run hk_init es) v).cha_brightness.max_value
      = some (CFloat.fin 100) := (run_range es CharRef.cha_brightness).2
  have hc := (set_brightness_fields (run hk_init es) v).2
  have h0 : (0 : Int) ≤ clamp_int_spec 0 100 v.int_value := by unfold clamp_int_spec; omega
  have h1 : clamp_int_spec 0 100 v.int_value ≤ (100 : Int) := by unfold clamp_int_spec; omega
  have q0 : (0 : ℚ) ≤ ((clamp_int_spec 0 100 v.int_value : Int) : ℚ) := by exact_mod_cast h0
  have q1 : ((clamp_int_spec 0 100 v.int_value : Int) : ℚ) ≤ 100 := by exact_mod_cast h1
  unfold in_declared_range
  rw [hmin, hmax, hc, int_to_float_small _ h0 h1]
  simp [CFloat.inRange, CFloat.le_fin_fin, q0, q1]

/-- The cached float after `set_hue` or `set_saturation` lies in the range
declared on the characteristic, for every input other than NaN and every state
reached from startup. -/
theorem float_cached_in_declared_range_of_not_nan (es : List Event) (v : homekit_value_t)
    (hn : v.float_value ≠ CFloat.nan) :
    in_declared_range (set_hue (run hk_init es) v).cha_hue
      (set_hue (run hk_init es) v).cha_hue.value.float_value = true ∧
    in_declared_range (set_saturation (run hk_init es) v).cha_saturation
      (set_saturation (run hk_init es) v).cha_saturation.value.float_value = true := by
  have h1 : (set_hue (run hk_init es) v).cha_hue.min_value = some (CFloat.fin 0) :=
    (run_range es CharRef.cha_hue).1
  have h2 : (set_hue (run hk_init es) v).cha_hue.max_value = some (CFloat.fin 360) :=
    (run_range es CharRef.cha_hue).2
  have h3 : (set_saturation (run hk_init es) v).cha_saturation.min_value
      = some (CFloat.fin 0) := (run_range es CharRef.cha_saturation).1
  have h4 : (set_saturation (run hk_init es) v).cha_saturation.max_value
      = some (CFloat.fin 100) := (run_range es CharRef.cha_saturation).2
  unfold in_declared_range
  rw [h1, h2, h3, h4]
  exact ⟨(set_hue_clamp_of_not_nan (run hk_init es) v hn).2,
    (set_saturation_clamp_of_not_nan (run hk_init es) v hn).2⟩

/-- The declared bounds are attained: writing 0 and 100 to Brightness, 0 and
360 to Hue, 0 and 100 to Saturation caches exactly these values. -/
theorem declared_bounds_attained (s : State) :
    (set_brightness s (HOMEKIT_INT 0)).cha_brightness.value.int_value = 0 ∧
    (set_brightness s (HOMEKIT_INT 100)).cha_brightness.value.int_value = 100 ∧
    (set_hue s (HOMEKIT_FLOAT (CFloat.fin 0))).cha_hue.value.float_value = CFloat.fin 0 ∧
    (set_hue s (HOMEKIT_FLOAT (CFloat.fin 360))).cha_hue.value.float_value = CFloat.fin 360 ∧
    (set_saturation s (HOMEKIT_FLOAT (CFloat.fin 0))).cha_saturation.value.float_value
      = CFloat.fin 0 ∧
    (set_saturation s (HOMEKIT_FLOAT (CFloat.fin 100))).cha_saturation.value.float_value
      = CFloat.fin 100 := by
  refine ⟨?_, ?_, ?_, ?_, ?_, ?_⟩
  · rw [(set_brightness_fields s _).2]; decide
  · rw [(set_brightness_fields s _).2]; decide
  · show code_clamp 360 (CFloat.fin 0) = _
    simp only [code_clamp, CFloat.lt_fin_fin]
    norm_num [CFloat.lt_fin_fin]
  · show code_clamp 360 (CFloat.fin 360) = _
    simp only [code_clamp, CFloat.lt_fin_fin]
    norm_num [CFloat.lt_fin_fin]
  · show code_clamp 100 (CFloat.fin 0) = _
    simp only [code_clamp, CFloat.lt_fin_fin]
    norm_num [CFloat.lt_fin_fin]
  · show code_clamp 100 (CFloat.fin 100) = _
    simp only [code_clamp, CFloat.lt_fin_fin]
    norm_num [CFloat.lt_fin_fin]

/-- C17, at the input that breaks it: `cha_hue` declares the range 0..360 and
`cha_saturation` the range 0..100, but after `set_hue` (resp. `set_saturation`)
is called with a NaN from the startup state the cached value is NaN, which is
not between the declared `min_value` and `max_value`. -/
theorem cached_nan_outside_declared_range :
    (set_hue hk_init (HOMEKIT_FLOAT CFloat.nan)).cha_hue.min_value = some (CFloat.fin 0) ∧
    (set_hue hk_init (HOMEKIT_FLOAT CFloat.nan)).cha_hue.max_value = some (CFloat.fin 360) ∧
    (set_hue hk_init (HOMEKIT_FLOAT CFloat.nan)).cha_hue.value.float_value = CFloat.nan ∧
    in_declared_range (set_hue hk_init (HOMEKIT_FLOAT CFloat.nan)).cha_hue
      (set_hue hk_init (HOMEKIT_FLOAT CFloat.nan)).cha_hue.value.float_value = false ∧
    (set_saturation hk_init (HOMEKIT_FLOAT CFloat.nan)).cha_saturation.min_value
      = some (CFloat.fin 0) ∧
    (set_saturation hk_init (HOMEKIT_FLOAT CFloat.nan)).cha_saturation.max_value
      = some (CFloat.fin 100) ∧
    (set_saturation hk_init (HOMEKIT_FLOAT CFloat.nan)).cha_saturation.value.float_value
      = CFloat.nan ∧
    in_declared_range (set_saturation hk_init (HOMEKIT_FLOAT CFloat.nan)).cha_saturation
      (set_saturation hk_init (HOMEKIT_FLOAT CFloat.nan)).cha_saturation.value.float_value
      = false := by
  have hh : (set_hue hk_init (HOMEKIT_FLOAT CFloat.nan)).cha_hue.value.float_value
      = CFloat.nan := code_clamp_nan 360
  have hs : (set_saturation hk_init (HOMEKIT_FLOAT CFloat.nan)).cha_saturation.value.float_value
      = CFloat.nan := code_clamp_nan 100
  refine ⟨rfl, rfl, hh, ?_, rfl, rfl, hs, ?_⟩
  · rw [hh]
    exact CFloat.inRange_nan _ _
  · rw [hs]
    exact CFloat.inRange_nan _ _

/-- Same datum in both stores: at startup the cached values agree with the
bridge defaults (On false
and power false, Brightness 100 and brightness 100, Hue 0 and hue 0,
Saturation 0 and saturation 0), and in every state reached from startup by any
sequence of writes and Identify triggers the cached value of each of the four
mutable characteristics and its bridge variable hold the same datum. -/
theorem reachable_cache_synced :
    (hk_init.cha_on.value.bool_value = false ∧ hk_init.hk_targetOn = false) ∧
    (hk_init.cha_brightness.value.int_value = 100 ∧
      hk_init.hk_targetBrightness = CFloat.fin 100) ∧
    (hk_init.cha_hue.value.float_value = CFloat.fin 0 ∧
      hk_init.hk_targetHue = CFloat.fin 0) ∧
    (hk_init.cha_saturation.value.float_value = CFloat.fin 0 ∧
      hk_init.hk_targetSat = CFloat.fin 0) ∧
    ∀ es : List Event, cache_synced (run hk_init es) :=
  ⟨⟨rfl, rfl⟩, ⟨rfl, rfl⟩, ⟨rfl, rfl⟩, ⟨rfl, rfl⟩, fun es => run_synced es hk_init hk_init_synced⟩

/-! ## Numeric equality of cache and bridge, and the clamped value of the last write -/

/-- A float in a closed range is not NaN. -/
theorem ne_nan_of_inRange (lo hi x : CFloat) (h : CFloat.inRange lo hi x = true) :
    x ≠ CFloat.nan := by
  intro hx
  rw [hx, CFloat.inRange_nan] at h
  exact Bool.false_ne_true h

/-- The float clamp of the handlers compares equal to itself exactly when its
input is not NaN. -/
theorem code_clamp_feq_self (hi : ℚ) (hhi : 0 ≤ hi) (h : CFloat) :
    CFloat.feq (code_clamp hi h) (code_clamp hi h) = !(CFloat.isNaN h) := by
  by_cases hn : h = CFloat.nan
  · rw [hn, code_clamp_nan]
    rfl
  · rw [CFloat.feq_self _ (ne_nan_of_inRange _ _ _ (code_clamp_inRange hi hhi h hn))]
    cases h with
    | nan => exact absurd rfl hn
    | ninf => rfl
    | pinf => rfl
    | negZero => rfl
    | fin q => rfl

/-- Numeric equality of cache and bridge after each handler, for every state
and input: it holds for On and for Brightness, and for Hue and Saturation the
C comparison `cached == bridge` is true exactly when the written float is not
NaN. -/
theorem setters_cache_feq_bridge (s : State) (v : homekit_value_t) :
    ((set_on s v).cha_on.value.bool_value == (set_on s v).hk_targetOn) = true ∧
    CFloat.feq (int_to_float (set_brightness s v).cha_brightness.value.int_value)
      (set_brightness s v).hk_targetBrightness = true ∧
    CFloat.feq (set_hue s v).cha_hue.value.float_value (set_hue s v).hk_targetHue
      = !(CFloat.isNaN v.float_value) ∧
    CFloat.feq (set_saturation s v).cha_saturation.value.float_value
      (set_saturation s v).hk_targetSat = !(CFloat.isNaN v.float_value) := by
  refine ⟨?_, ?_, code_clamp_feq_self 360 (by norm_num) _, code_clamp_feq_self 100 (by norm_num) _⟩
  · show (v.bool_value == v.bool_value) = true
    simp
  · have hc := (set_brightness_fields s v).2
    have hb := (set_brightness_fields s v).1
    have h0 : (0 : Int) ≤ clamp_int_spec 0 100 v.int_value := by unfold clamp_int_spec; omega
    have h1 : clamp_int_spec 0 100 v.int_value ≤ (100 : Int) := by unfold clamp_int_spec; omega
    rw [hc, hb, int_to_float_small _ h0 h1]
    simp [CFloat.feq_fin_fin]

/-- Last write wins with the clamp of the spec, away from NaN: when the last
Hue (resp. Saturation) write of a run carries a float other than NaN, the
bridge field compares equal to `max(0, min(360, h))` (resp.
`max(0, min(100, s))`) of that last written float. -/
theorem latest_value_wins_spec_of_not_nan (s : State) (es : List Event) (v : homekit_value_t)
    (hn : v.float_value ≠ CFloat.nan) :
    (last_write Event.hue_write es = some v →
      CFloat.feq (run s es).hk_targetHue
        (clamp_float_spec (CFloat.fin 0) (CFloat.fin 360) v.float_value) = true) ∧
    (last_write Event.saturation_write es = some v →
      CFloat.feq (run s es).hk_targetSat
        (clamp_float_spec (CFloat.fin 0) (CFloat.fin 100) v.float_value) = true) := by
  obtain ⟨_, _, hh, hs⟩ := latest_value_wins s es
  constructor
  · intro hl
    rw [hh, hl]
    exact code_clamp_feq 360 (by norm_num) _ hn
  · intro hl
    rw [hs, hl]
    exact code_clamp_feq 100 (by norm_num) _ hn

/-- From startup, a run none of whose values carries a NaN keeps the cached
values and the bridge numerically equal. -/
theorem run_cache_numerically_equal_of_no_nan (es : List Event)
    (he : ∀ e ∈ es, e.value.float_value ≠ CFloat.nan) :
    cache_numerically_equal (run hk_init es) = true := by
  obtain ⟨h1, _, h3, h4, h5⟩ := run_synced es hk_init hk_init_synced
  have hr := run_in_range_of_no_nan es he
  simp only [bridge_in_range, Bool.and_eq_true] at hr
  obtain ⟨⟨hb, hh⟩, hsat⟩ := hr
  simp only [cache_numerically_equal, Bool.and_eq_true]
  refine ⟨⟨⟨?_, ?_⟩, ?_⟩, ?_⟩
  · rw [h1]; simp
  · rw [← h3]; exact CFloat.feq_self _ (ne_nan_of_inRange _ _ _ hb)
  · rw [h4]; exact CFloat.feq_self _ (ne_nan_of_inRange _ _ _ hh)
  · rw [h5]; exact CFloat.feq_self _ (ne_nan_of_inRange _ _ _ hsat)

/-- C6, at the input that breaks it: after `set_hue` (resp. `set_saturation`) is
called with a NaN, from any state, the cached value and the bridge variable
are both NaN, and the C comparison `cached == bridge` is false: the two are
not numerically equal. -/
theorem set_float_nan_cache_not_numerically_equal (s : State) :
    (set_hue s (HOMEKIT_FLOAT CFloat.nan)).cha_hue.value.float_value = CFloat.nan ∧
    (set_hue s (HOMEKIT_FLOAT CFloat.nan)).hk_targetHue = CFloat.nan ∧
    CFloat.feq (set_hue s (HOMEKIT_FLOAT CFloat.nan)).cha_hue.value.float_value
      (set_hue s (HOMEKIT_FLOAT CFloat.nan)).hk_targetHue = false ∧
    (set_saturation s (HOMEKIT_FLOAT CFloat.nan)).cha_saturation.value.float_value
      = CFloat.nan ∧
    (set_saturation s (HOMEKIT_FLOAT CFloat.nan)).hk_targetSat = CFloat.nan ∧
    CFloat.feq (set_saturation s (HOMEKIT_FLOAT CFloat.nan)).cha_saturation.value.float_value
      (set_saturation s (HOMEKIT_FLOAT CFloat.nan)).hk_targetSat = false := by
  have hh : (set_hue s (HOMEKIT_FLOAT CFloat.nan)).hk_targetHue = CFloat.nan :=
    code_clamp_nan 360
  have hc : (set_hue s (HOMEKIT_FLOAT CFloat.nan)).cha_hue.value.float_value = CFloat.nan :=
    code_clamp_nan 360
  have sh : (set_saturation s (HOMEKIT_FLOAT CFloat.nan)).hk_targetSat = CFloat.nan :=
    code_clamp_nan 100
  have sc : (set_saturation s (HOMEKIT_FLOAT CFloat.nan)).cha_saturation.value.float_value
      = CFloat.nan := code_clamp_nan 100
  refine ⟨hc, hh, ?_, sc, sh, ?_⟩
  · rw [hc]; exact CFloat.feq_nan_left _
  · rw [sc]; exact CFloat.feq_nan_left _

/-- C11, at a run that breaks it: from startup, when the last Hue write of the
run `[Hue 10, On true, Hue NaN]` carries NaN, the bridge hue is NaN, while the
clamped value `max(0, min(360, NaN))` of that last write is 360; the bridge
hue compares equal to no float.  Likewise for Saturation, where the clamped
value is 100. -/
theorem latest_write_nan_not_clamped :
    last_write Event.hue_write
        [Event.write_hue (HOMEKIT_FLOAT (CFloat.fin 10)), Event.write_on (HOMEKIT_BOOL true),
          Event.write_hue (HOMEKIT_FLOAT CFloat.nan)] = some (HOMEKIT_FLOAT CFloat.nan) ∧
    (run hk_init
        [Event.write_hue (HOMEKIT_FLOAT (CFloat.fin 10)), Event.write_on (HOMEKIT_BOOL true),
          Event.write_hue (HOMEKIT_FLOAT CFloat.nan)]).hk_targetHue = CFloat.nan ∧
    clamp_float_spec (CFloat.fin 0) (CFloat.fin 360) (HOMEKIT_FLOAT CFloat.nan).float_value
      = CFloat.fin 360 ∧
    (∀ x : CFloat, CFloat.feq (run hk_init
        [Event.write_hue (HOMEKIT_FLOAT (CFloat.fin 10)), Event.write_on (HOMEKIT_BOOL true),
          Event.write_hue (HOMEKIT_FLOAT CFloat.nan)]).hk_targetHue x = false) ∧
    last_write Event.saturation_write
        [Event.write_saturation (HOMEKIT_FLOAT (CFloat.fin 10)),
          Event.write_saturation (HOMEKIT_FLOAT CFloat.nan)] = some (HOMEKIT_FLOAT CFloat.nan) ∧
    (run hk_init
        [Event.write_saturation (HOMEKIT_FLOAT (CFloat.fin 10)),
          Event.write_saturation (HOMEKIT_FLOAT CFloat.nan)]).hk_targetSat = CFloat.nan ∧
    clamp_float_spec (CFloat.fin 0) (CFloat.fin 100) (HOMEKIT_FLOAT CFloat.nan).float_value
      = CFloat.fin 100 ∧
    (∀ x : CFloat, CFloat.feq (run hk_init
        [Event.write_saturation (HOMEKIT_FLOAT (CFloat.fin 10)),
          Event.write_saturation (HOMEKIT_FLOAT CFloat.nan)]).hk_targetSat x = false) := by
  have hh : (run hk_init
      [Event.write_hue (HOMEKIT_FLOAT (CFloat.fin 10)), Event.write_on (HOMEKIT_BOOL true),
        Event.write_hue (HOMEKIT_FLOAT CFloat.nan)]).hk_targetHue = CFloat.nan :=
    code_clamp_nan 360
  have hs : (run hk_init
      [Event.write_saturation (HOMEKIT_FLOAT (CFloat.fin 10)),
        Event.write_saturation (HOMEKIT_FLOAT CFloat.nan)]).hk_targetSat = CFloat.nan :=
    code_clamp_nan 100
  have c1 : clamp_float_spec (CFloat.fin 0) (CFloat.fin 360) CFloat.nan = CFloat.fin 360 := by
    simp [clamp_float_spec, fmax_spec, fmin_spec, CFloat.lt_nan_left, CFloat.lt_fin_fin]
  have c2 : clamp_float_spec (CFloat.fin 0) (CFloat.fin 100) CFloat.nan = CFloat.fin 100 := by
    simp [clamp_float_spec, fmax_spec, fmin_spec, CFloat.lt_nan_left, CFloat.lt_fin_fin]
  refine ⟨rfl, hh, c1, ?_, rfl, hs, c2, ?_⟩
  · intro x; rw [hh]; exact CFloat.feq_nan_left x
  · intro x; rw [hs]; exact CFloat.feq_nan_left x

/-- C18, at a reachable state that breaks it: at startup the cached values and
the bridge are numerically equal, but in the state reached from startup by one
Hue write carrying NaN the cached hue and the bridge hue are both NaN and the C
comparison `cached == bridge` is false; likewise after one Saturation write
carrying NaN.  Numeric equality of cache and bridge fails in both reachable
states. -/
theorem reachable_nan_cache_not_numerically_equal :
    cache_numerically_equal hk_init = true ∧
    (run hk_init [Event.write_hue (HOMEKIT_FLOAT CFloat.nan)]).cha_hue.value.float_value
      = CFloat.nan ∧
    (run hk_init [Event.write_hue (HOMEKIT_FLOAT CFloat.nan)]).hk_targetHue = CFloat.nan ∧
    CFloat.feq
      (run hk_init [Event.write_hue (HOMEKIT_FLOAT CFloat.nan)]).cha_hue.value.float_value
      (run hk_init [Event.write_hue (HOMEKIT_FLOAT CFloat.nan)]).hk_targetHue = false ∧
    cache_numerically_equal (run hk_init [Event.write_hue (HOMEKIT_FLOAT CFloat.nan)])
      = false ∧
    CFloat.feq
      (run hk_init
        [Event.write_saturation (HOMEKIT_FLOAT CFloat.nan)]).cha_saturation.value.float_value
      (run hk_init [Event.write_saturation (HOMEKIT_FLOAT CFloat.nan)]).hk_targetSat = false ∧
    cache_numerically_equal (run hk_init [Event.write_saturation (HOMEKIT_FLOAT CFloat.nan)])
      = false := by
  have hc : (run hk_init
      [Event.write_hue (HOMEKIT_FLOAT CFloat.nan)]).cha_hue.value.float_value = CFloat.nan :=
    code_clamp_nan 360
  have hh : (run hk_init [Event.write_hue (HOMEKIT_FLOAT CFloat.nan)]).hk_targetHue
      = CFloat.nan := code_clamp_nan 360
  have sc : (run hk_init
      [Event.write_saturation (HOMEKIT_FLOAT CFloat.nan)]).cha_saturation.value.float_value
      = CFloat.nan := code_clamp_nan 100
  have h0 : cache_numerically_equal hk_init = true :=
    run_cache_numerically_equal_of_no_nan [] (fun e he => absurd he (List.not_mem_nil e))
  refine ⟨h0, hc, hh, ?_, ?_, ?_, ?_⟩
  · rw [hc]; exact CFloat.feq_nan_left _
  · simp only [cache_numerically_equal, hc, CFloat.feq_nan_left, Bool.and_false,
      Bool.false_and]
  · rw [sc]; exact CFloat.feq_nan_left _
  · simp only [cache_numerically_equal, sc, CFloat.feq_nan_left, Bool.and_false]

end HomekitWs2812
